import Mathlib

/-!
Shallow embedding of the Omen real-time connection manager of
`travelers.ai` (`packages/api/src/travelers_api/clients/omen.py`) and of
its websocket multiplexing proxy
(`packages/api/src/travelers_api/routers/omen.py`), together with proofs
about the behaviour the specification ascribes to them.

Machine floats of the source (`confidence`, `timestamp`, delays in
seconds) carry no arithmetic in the code under study, so they are
embedded as rationals / naturals; `asyncio` tasks are embedded as
pending/not-pending booleans and their bodies as explicit state
transformers.
-/

namespace Travelers

/-- Mirrors `OmenScreen` (valid screen values for context updates). -/
inductive OmenScreen where
  | home
  | explore
  | poi_detail
  | itinerary
  | compare
  | booking
  | chat
deriving DecidableEq, Repr

/-- Mirrors the `.value` of the Python `str`-enum `OmenScreen`. -/
def OmenScreen.value : OmenScreen → String
  | .home => "home"
  | .explore => "explore"
  | .poi_detail => "poi_detail"
  | .itinerary => "itinerary"
  | .compare => "compare"
  | .booking => "booking"
  | .chat => "chat"

/-- Mirrors `OmenTarget` (where Omen wants the output displayed). -/
inductive OmenTarget where
  | sidebar
  | ambient
  | chat
deriving DecidableEq, Repr

/-- Mirrors the pydantic model `EngineStatus`. -/
structure EngineStatus where
  fast_model_ready : Bool
  quality_model_ready : Bool
  background_cycle_active : Bool
deriving DecidableEq, Repr

/-- Mirrors the pydantic model `AssistantOutput`. -/
structure AssistantOutput where
  target : OmenTarget
  content : String
  confidence : ℚ
  lens_source : String
  timestamp : ℚ
deriving DecidableEq, Repr

/-- Mirrors the pydantic model `StreamChunk`. -/
structure StreamChunk where
  content : String
  done : Bool
  conversation_id : Option String := none
deriving DecidableEq, Repr

/-- Mirrors the pydantic model `OmenError`. -/
structure OmenError where
  code : String
  message : String
deriving DecidableEq, Repr

/-- Mirrors `OmenState` (current state of the Omen connection), with the
defaults of the source. -/
structure OmenState where
  is_connected : Bool := false
  is_ready : Bool := false
  sidebar_insights : List AssistantOutput := []
  ambient_message : Option AssistantOutput := none
  chat_response : String := ""
  is_streaming : Bool := false
  last_error : Option OmenError := none
deriving DecidableEq, Repr

/-- The mutable fields of `OmenClient` that the claims touch.  `ws`
stands for `self._ws is not None`; the three `*_pending` booleans stand
for "this `asyncio` task object exists and has neither finished nor been
cancelled". -/
structure OmenClient where
  ws : Bool := false
  state : OmenState := {}
  receive_task_pending : Bool := false
  reconnect_task_pending : Bool := false
  should_reconnect : Bool := true
  reconnect_attempts : Nat := 0
  ambient_clear_task_pending : Bool := false
deriving DecidableEq, Repr

/-- Mirrors `OmenClient.MAX_SIDEBAR_INSIGHTS = 5`. -/
def MAX_SIDEBAR_INSIGHTS : Nat := 5

/-- Mirrors `OmenClient.RECONNECT_DELAY = 5.0` (seconds, an exact
float). -/
def RECONNECT_DELAY : Nat := 5

/-- Mirrors `OmenClient.MAX_RECONNECT_ATTEMPTS = 10`. -/
def MAX_RECONNECT_ATTEMPTS : Nat := 10

/-- A freshly constructed `OmenClient` (its `__init__`). -/
def OmenClient.init : OmenClient := {}

/-- Mirrors `OmenClient.connect`.  `ok` is the outcome of
`websockets.connect`: on success the state is marked connected, the
attempt counter is reset to 0 and the receive loop is started; on
failure (`WebSocketException`/`OSError`) the state is marked not
connected and not ready.  The returned boolean is the method's return
value. -/
def OmenClient.connect (c : OmenClient) (ok : Bool) : Bool × OmenClient :=
  if ok then
    (true, { c with
      ws := true,
      state := { c.state with is_connected := true },
      reconnect_attempts := 0,
      receive_task_pending := true })
  else
    (false, { c with
      state := { c.state with is_connected := false, is_ready := false } })

/-- Mirrors `OmenClient.disconnect`: sets `_should_reconnect = False`,
cancels and awaits `_receive_task` and `_reconnect_task`, closes the
websocket, and marks the state not connected and not ready.  The source
never touches `_ambient_clear_task` here. -/
def OmenClient.disconnect (c : OmenClient) : OmenClient :=
  { c with
    should_reconnect := false,
    receive_task_pending := false,
    reconnect_task_pending := false,
    ws := false,
    state := { c.state with is_connected := false, is_ready := false } }

/-- Mirrors the body of `OmenClient._clear_ambient_after_delay` after
its `await asyncio.sleep(5)`: the pending ambient-clear task fires and
sets `ambient_message = None`. -/
def OmenClient.fire_ambient_clear (c : OmenClient) : OmenClient :=
  { c with
    ambient_clear_task_pending := false,
    state := { c.state with ambient_message := none } }

/-- Mirrors `OmenClient._handle_engine_status`: `is_ready` becomes
`fast_model_ready and quality_model_ready`, nothing else changes. -/
def OmenClient.handle_engine_status (c : OmenClient) (status : EngineStatus) :
    OmenClient :=
  let is_ready := status.fast_model_ready && status.quality_model_ready
  { c with state := { c.state with is_ready := is_ready } }

/-- Mirrors `OmenClient._handle_assistant_output`.  Sidebar: append, and
when the list exceeds `MAX_SIDEBAR_INSIGHTS` keep the last 5
(`insights[-5:]`).  Ambient: replace the message, cancel any pending
clear task and schedule a new one.  Chat: concatenate onto
`chat_response`. -/
def OmenClient.handle_assistant_output (c : OmenClient) (output : AssistantOutput) :
    OmenClient :=
  match output.target with
  | OmenTarget.sidebar =>
      let insights := c.state.sidebar_insights ++ [output]
      let insights :=
        if MAX_SIDEBAR_INSIGHTS < insights.length then
          insights.drop (insights.length - MAX_SIDEBAR_INSIGHTS)
        else insights
      { c with state := { c.state with sidebar_insights := insights } }
  | OmenTarget.ambient =>
      { c with
        state := { c.state with ambient_message := some output },
        ambient_clear_task_pending := true }
  | OmenTarget.chat =>
      { c with state := { c.state with
          chat_response := c.state.chat_response ++ output.content } }

/-- Mirrors `OmenClient._handle_stream_chunk`: append the chunk content
to `chat_response` and set `is_streaming = not chunk.done`. -/
def OmenClient.handle_stream_chunk (c : OmenClient) (chunk : StreamChunk) :
    OmenClient :=
  { c with state := { c.state with
      chat_response := c.state.chat_response ++ chunk.content,
      is_streaming := !chunk.done } }

/-- Mirrors `OmenClient._handle_error`: record the error in
`last_error` and force `is_streaming = False`. -/
def OmenClient.handle_error (c : OmenClient) (e : OmenError) : OmenClient :=
  { c with state := { c.state with
      last_error := some e,
      is_streaming := false } }

/-- Mirrors `OmenClient.clear_sidebar_insights`. -/
def OmenClient.clear_sidebar_insights (c : OmenClient) : OmenClient :=
  { c with state := { c.state with sidebar_insights := [] } }

/-- Mirrors `OmenClient.clear_ambient_message`. -/
def OmenClient.clear_ambient_message (c : OmenClient) : OmenClient :=
  { c with state := { c.state with ambient_message := none } }

/-- The decoded inbound frames dispatched by `OmenClient._handle_message`.
The `unknown` case stands for a well-formed frame whose `type` is not
recognised (logged and dropped); a malformed-JSON frame never reaches the
dispatch and leaves the client unchanged as well. -/
inductive InboundMessage where
  | engine_status : EngineStatus → InboundMessage
  | assistant_output : AssistantOutput → InboundMessage
  | stream_chunk : StreamChunk → InboundMessage
  | error_frame : OmenError → InboundMessage
  | unknown : String → InboundMessage
deriving DecidableEq, Repr

/-- Mirrors the dispatch of `OmenClient._handle_message` (the optional
`_on_message` callback does not mutate the client's own state). -/
def OmenClient.handle_message (c : OmenClient) (m : InboundMessage) : OmenClient :=
  match m with
  | .engine_status status => c.handle_engine_status status
  | .assistant_output output => c.handle_assistant_output output
  | .stream_chunk chunk => c.handle_stream_chunk chunk
  | .error_frame e => c.handle_error e
  | .unknown _ => c

/-! ## Wire encoding of outbound frames -/

/-- A JSON value, as produced by pydantic's `model_dump_json` /
`json.dumps`.  Objects keep insertion order, as Python dicts do. -/
inductive Json where
  | null : Json
  | bool : Bool → Json
  | num : ℚ → Json
  | str : String → Json
  | arr : List Json → Json
  | obj : List (String × Json) → Json
deriving Repr

/-- Whether a JSON value is the literal `null`. -/
def Json.isNull : Json → Bool
  | .null => true
  | _ => false

/-- Python truthiness of an `str | None` value, as tested by
`if selected_item_id:` — `None` and the empty string are falsy. -/
def strTruthy : Option String → Bool
  | none => false
  | some s => s != ""

/-- Mirrors the pydantic model `ContextUpdate`.  The source declares a
field `screenshot: None = None` whose only value is `None`; it is kept
implicit here and reappears in `model_dump` below.  `ui_state` is the
JSON object built by `ContextUpdate.create`. -/
structure ContextUpdate where
  type : String := "context_update"
  ui_state : List (String × Json)
  timestamp : ℚ

/-- Mirrors `ContextUpdate.create`: `ui_state` holds `screen` and
`metadata`, then `selected_item_id` / `selected_item_type` only when
truthy; `timestamp` is stamped with `datetime.now().timestamp()`, passed
here as `now`. -/
def ContextUpdate.create (now : ℚ) (screen : OmenScreen)
    (metadata : List (String × Json))
    (selected_item_id selected_item_type : Option String) : ContextUpdate :=
  let ui_state := [("screen", Json.str screen.value),
                   ("metadata", Json.obj metadata)]
  let ui_state := ui_state ++
    (match selected_item_id with
     | some s => if s != "" then [("selected_item_id", Json.str s)] else []
     | none => [])
  let ui_state := ui_state ++
    (match selected_item_type with
     | some s => if s != "" then [("selected_item_type", Json.str s)] else []
     | none => [])
  { ui_state := ui_state, timestamp := now }

/-- Mirrors `ContextUpdate(...).model_dump_json()`: pydantic v2 dumps
every field in declaration order and does not drop `None` fields, so the
constant `screenshot: None = None` field is emitted as `null`. -/
def ContextUpdate.model_dump (m : ContextUpdate) : List (String × Json) :=
  [("type", Json.str m.type),
   ("screenshot", Json.null),
   ("ui_state", Json.obj m.ui_state),
   ("timestamp", Json.num m.timestamp)]

/-- Mirrors `OmenClient.send_context`.  When `self._ws` is absent it
returns `False` at once (no exception, no state change); otherwise it
encodes `ContextUpdate.create` and sends it — `sendOk` is the outcome of
`self._ws.send`, a failure being caught and reported as `False`.  The
frame that was put on the wire (if any) is returned for inspection. -/
def OmenClient.send_context (c : OmenClient) (sendOk : Bool) (now : ℚ)
    (screen : OmenScreen) (metadata : List (String × Json))
    (selected_item_id selected_item_type : Option String) :
    Bool × OmenClient × Option ContextUpdate :=
  if !c.ws then (false, c, none)
  else
    let message := ContextUpdate.create now screen metadata
      selected_item_id selected_item_type
    if sendOk then (true, c, some message)
    else (false, c, some message)

/-- Mirrors `OmenClient.send_chat`.  When `self._ws` is absent it
returns `False` at once (no exception, no state change); otherwise the
chat state is reset (`chat_response=""`, `is_streaming=True`) and the
`UserMessage` is sent — on send failure `is_streaming` is dropped back
to `False` and `False` returned. -/
def OmenClient.send_chat (c : OmenClient) (sendOk : Bool) (content : String)
    (conversation_id : Option String) : Bool × OmenClient :=
  if !c.ws then (false, c)
  else
    let c := { c with state := { c.state with
      chat_response := "", is_streaming := true } }
    if sendOk then (true, c)
    else (false, { c with state := { c.state with is_streaming := false } })

/-! ## The reconnect loop -/

/-- Mirrors the `while` loop of `OmenClient._reconnect`, embedded with a
fuel bound on the iteration count.  `outcome k` is the result of the
`k`-th `connect()` call the loop makes.  Each iteration first increments
`_reconnect_attempts`, computes
`delay = min(RECONNECT_DELAY * 2 ** (attempts - 1), 60)`, sleeps that
long, and tries `connect()`; on success the loop returns.  The returned
list collects the delays slept, in order.  The loop runs at most
`MAX_RECONNECT_ATTEMPTS - reconnect_attempts` times, so any fuel at
least that large makes the fuel-exhaustion branch unreachable. -/
def OmenClient.reconnectLoop (outcome : Nat → Bool) :
    Nat → Nat → OmenClient → List Nat × OmenClient
  | _, 0, c => ([], c)
  | k, fuel + 1, c =>
    if c.should_reconnect = true ∧ c.reconnect_attempts < MAX_RECONNECT_ATTEMPTS then
      let c := { c with reconnect_attempts := c.reconnect_attempts + 1 }
      let delay := min (RECONNECT_DELAY * 2 ^ (c.reconnect_attempts - 1)) 60
      let r := c.connect (outcome k)
      if r.1 then ([delay], r.2)
      else
        let rest := OmenClient.reconnectLoop outcome (k + 1) fuel r.2
        (delay :: rest.1, rest.2)
    else ([], c)

/-- Mirrors `OmenClient._reconnect` as started by the receive loop:
runs `reconnectLoop` with adequate fuel. -/
def OmenClient.reconnect (outcome : Nat → Bool) (c : OmenClient) :
    List Nat × OmenClient :=
  OmenClient.reconnectLoop outcome 0 MAX_RECONNECT_ATTEMPTS c

/-! ## The websocket proxy (`routers/omen.py`) -/

/-- The shared state of the frontend proxy: the key set of
`WebSocketManager.active_connections` (a Python dict, insertion order),
the Omen client's single `_on_message` callback — identified by the
client id the installed closure forwards to, `none` when no callback is
installed — and, for each running `websocket_proxy` handler, the
`original_callback` it captured when it attached. -/
structure ProxyState where
  active_connections : List String := []
  on_message : Option String := none
  saved_callbacks : List (String × Option String) := []
deriving DecidableEq, Repr

/-- Mirrors attaching a frontend in `websocket_proxy`:
`ws_manager.connect` stores the socket under `client_id`, the handler
saves `omen_client._on_message` into its local `original_callback` and
installs its own forwarding callback. -/
def ProxyState.attach (s : ProxyState) (client_id : String) : ProxyState :=
  { active_connections :=
      if client_id ∈ s.active_connections then s.active_connections
      else s.active_connections ++ [client_id],
    saved_callbacks := (client_id, s.on_message) :: s.saved_callbacks,
    on_message := some client_id }

/-- Mirrors the `finally` block of `websocket_proxy` for `client_id`:
`ws_manager.disconnect` pops the socket and the handler restores
`omen_client._on_message = original_callback` — the callback it saved
when it attached. -/
def ProxyState.detach (s : ProxyState) (client_id : String) : ProxyState :=
  { active_connections := s.active_connections.filter (fun x => x ≠ client_id),
    on_message := (s.saved_callbacks.lookup client_id).getD none,
    saved_callbacks := s.saved_callbacks.filter (fun p => p.1 ≠ client_id) }

/-- The set of frontend clients that receive one inbound Omen frame:
`OmenClient._handle_message` invokes the single `_on_message` callback
(when installed), whose closure schedules
`ws_manager.broadcast_to_client(client_id, msg)` — a send to that one
client, skipped when it is no longer registered. -/
def ProxyState.deliver (s : ProxyState) : List String :=
  match s.on_message with
  | none => []
  | some client_id =>
      if client_id ∈ s.active_connections then [client_id] else []

/-! ## Reachability and concrete scenarios -/

/-- One step of the embedded client: any public operation or the body of
any background task.  These generate every state the client can be put
in. -/
inductive ClientStep : OmenClient → OmenClient → Prop where
  | connect (c : OmenClient) (ok : Bool) : ClientStep c (c.connect ok).2
  | disconnect (c : OmenClient) : ClientStep c c.disconnect
  | send_context (c : OmenClient) (sendOk : Bool) (now : ℚ) (screen : OmenScreen)
      (metadata : List (String × Json)) (sid sty : Option String) :
      ClientStep c (c.send_context sendOk now screen metadata sid sty).2.1
  | send_chat (c : OmenClient) (sendOk : Bool) (content : String)
      (cid : Option String) : ClientStep c (c.send_chat sendOk content cid).2
  | handle (c : OmenClient) (m : InboundMessage) : ClientStep c (c.handle_message m)
  | reconnect (c : OmenClient) (outcome : Nat → Bool) :
      ClientStep c (OmenClient.reconnect outcome c).2
  | clear_sidebar (c : OmenClient) : ClientStep c c.clear_sidebar_insights
  | clear_ambient (c : OmenClient) : ClientStep c c.clear_ambient_message
  | fire_ambient (c : OmenClient) : ClientStep c c.fire_ambient_clear

/-- The states an `OmenClient` can reach from construction. -/
inductive Reachable : OmenClient → Prop where
  | init : Reachable OmenClient.init
  | step {c c' : OmenClient} : Reachable c → ClientStep c c' → Reachable c'

/-- A concrete ambient insight, used in concrete scenarios. -/
def ambientTip : AssistantOutput :=
  { target := OmenTarget.ambient,
    content := "Sunset views are best from the west gate",
    confidence := 9/10, lens_source := "proactive_tip",
    timestamp := 1700000000 }

/-- A concrete sidebar insight, indexed so eviction order is visible. -/
def sidebarInsight (i : Nat) : AssistantOutput :=
  { target := OmenTarget.sidebar, content := "insight",
    confidence := 1, lens_source := "proactive_tip", timestamp := (i : ℚ) }

/-- C2 scenario: a connected client. -/
def c2_connected : OmenClient := (OmenClient.init.connect true).2

/-- C2 scenario: an ambient insight arrives, starting the 5-second
clear timer. -/
def c2_with_ambient : OmenClient := c2_connected.handle_assistant_output ambientTip

/-- C2 scenario: `disconnect()` is called while the clear timer is
pending. -/
def c2_disconnected : OmenClient := c2_with_ambient.disconnect

/-- C1 scenario: frontend "A" attaches to the proxy, then frontend "B"
attaches. -/
def c1_bothAttached : ProxyState := (ProxyState.attach {} "A").attach "B"

/-! ## Claims about the event handlers -/

/-- C5: for every inbound `engine_status` event the resulting ready flag
equals `fast_model_ready AND quality_model_ready`; in particular
`{fast=true, quality=false}` yields `ready=false` and only `{true,true}`
yields `ready=true`. -/
theorem engine_status_ready_is_conjunction :
    ∀ (c : OmenClient) (status : EngineStatus),
      (c.handle_engine_status status).state.is_ready
        = (status.fast_model_ready && status.quality_model_ready)
      ∧ ∀ (b : Bool),
          (c.handle_engine_status
            { fast_model_ready := true, quality_model_ready := false,
              background_cycle_active := b }).state.is_ready = false
          ∧ (c.handle_engine_status
              { fast_model_ready := true, quality_model_ready := true,
                background_cycle_active := b }).state.is_ready = true
          ∧ (c.handle_engine_status
              { fast_model_ready := false, quality_model_ready := true,
                background_cycle_active := b }).state.is_ready = false
          ∧ (c.handle_engine_status
              { fast_model_ready := false, quality_model_ready := false,
                background_cycle_active := b }).state.is_ready = false := by
  intro c status
  exact ⟨rfl, fun _ => ⟨rfl, rfl, rfl, rfl⟩⟩

/-- C7: every inbound `error` frame is recorded as `last_error` and
forces `is_streaming = false`, whatever the prior state, while
`is_connected` is left unchanged. -/
theorem error_frame_records_and_stops_streaming :
    ∀ (c : OmenClient) (e : OmenError),
      (c.handle_error e).state.last_error = some e
      ∧ (c.handle_error e).state.is_streaming = false
      ∧ (c.handle_error e).state.is_connected = c.state.is_connected := by
  intro c e
  exact ⟨rfl, rfl, rfl⟩

/-- C10: the `engine_status` handler mutates only the ready flag — for
every starting state and payload, `is_connected`, `sidebar_insights`,
`ambient_message`, `chat_response`, `is_streaming` and `last_error` are
unchanged. -/
theorem engine_status_frame_condition :
    ∀ (c : OmenClient) (status : EngineStatus),
      (c.handle_engine_status status).state.is_connected = c.state.is_connected
      ∧ (c.handle_engine_status status).state.sidebar_insights
          = c.state.sidebar_insights
      ∧ (c.handle_engine_status status).state.ambient_message
          = c.state.ambient_message
      ∧ (c.handle_engine_status status).state.chat_response
          = c.state.chat_response
      ∧ (c.handle_engine_status status).state.is_streaming
          = c.state.is_streaming
      ∧ (c.handle_engine_status status).state.last_error = c.state.last_error := by
  intro c status
  exact ⟨rfl, rfl, rfl, rfl, rfl, rfl⟩

/-- C8: while the client is not connected (`self._ws` absent), both
`send_context` and `send_chat` return `False` without raising and leave
the client untouched, for every argument value. -/
theorem sends_while_disconnected_return_false :
    ∀ (c : OmenClient) (sendOk : Bool) (now : ℚ) (screen : OmenScreen)
      (metadata : List (String × Json)) (sid sty : Option String)
      (content : String) (cid : Option String),
      c.ws = false →
      (c.send_context sendOk now screen metadata sid sty).1 = false
      ∧ (c.send_context sendOk now screen metadata sid sty).2.1 = c
      ∧ (c.send_chat sendOk content cid).1 = false
      ∧ (c.send_chat sendOk content cid).2 = c := by
  intro c sendOk now screen metadata sid sty content cid h
  simp [OmenClient.send_context, OmenClient.send_chat, h]

/-- Witness for C8 at a freshly constructed (disconnected) client. -/
theorem sends_while_disconnected_return_false_witness :
    (OmenClient.init.send_context true 0 OmenScreen.home [] none none).1 = false
    ∧ (OmenClient.init.send_context true 0 OmenScreen.home [] none none).2.1
        = OmenClient.init
    ∧ (OmenClient.init.send_chat true "hello" none).1 = false
    ∧ (OmenClient.init.send_chat true "hello" none).2 = OmenClient.init :=
  sends_while_disconnected_return_false OmenClient.init true 0 OmenScreen.home
    [] none none "hello" none rfl

/-! ## Claims about teardown and the proxy -/

/-- C2: `disconnect()` cancels the receive task and the reconnect task,
but never touches the pending ambient-clear timer: after `disconnect`
returns the timer is still pending, and when it fires it still mutates
the session state (`ambient_message` drops from the delivered insight to
`none`).  This refutes the claim that no background task mutates the
state after `disconnect()` completes. -/
theorem disconnect_leaves_ambient_clear_timer_pending :
    c2_with_ambient.ambient_clear_task_pending = true
    ∧ c2_with_ambient.receive_task_pending = true
    ∧ c2_disconnected.receive_task_pending = false
    ∧ c2_disconnected.reconnect_task_pending = false
    ∧ c2_disconnected.should_reconnect = false
    ∧ c2_disconnected.ambient_clear_task_pending = true
    ∧ c2_disconnected.state.ambient_message = some ambientTip
    ∧ c2_disconnected.fire_ambient_clear.state.ambient_message = none :=
  ⟨rfl, rfl, rfl, rfl, rfl, rfl, rfl, rfl⟩

/-- C1: with frontends "A" and "B" both attached, one inbound frame is
forwarded only to "B" — the most recently installed callback — and "A"
receives zero copies; after "A" detaches, its saved `original_callback`
(`None`) is restored, so a further frame reaches nobody, not even the
still-attached "B".  This refutes broadcast-to-all-attached delivery. -/
theorem proxy_delivers_only_to_most_recently_attached :
    c1_bothAttached.active_connections = ["A", "B"]
    ∧ c1_bothAttached.deliver = ["B"]
    ∧ c1_bothAttached.deliver.count "A" = 0
    ∧ (c1_bothAttached.detach "A").active_connections = ["B"]
    ∧ (c1_bothAttached.detach "A").deliver = [] := by
  decide

/-! ## Claims about the wire encoding -/

/-- C9 counterexample: the frame encoded for a `ContextUpdate` with no
optional field supplied still contains the member `"screenshot": null` —
a null placeholder for a field that was not (and cannot be) supplied. -/
theorem context_update_screenshot_null_emitted :
    ("screenshot", Json.null) ∈
      (ContextUpdate.create 0 OmenScreen.home [] none none).model_dump := by
  simp [ContextUpdate.create, ContextUpdate.model_dump]

/-- C9 amended: every encoded `ContextUpdate` carries the freshly
stamped timestamp; inside `ui_state` the optional
`selected_item_id`/`selected_item_type` members appear exactly when
supplied truthy (non-`None`, non-empty) and never as `null`; the one
null member of the emitted frame is the constant top-level `screenshot`
field, which is always serialised as `null`. -/
theorem context_update_fresh_timestamp_omits_absent_optionals :
    ∀ (now : ℚ) (screen : OmenScreen) (metadata : List (String × Json))
      (sid sty : Option String),
      (ContextUpdate.create now screen metadata sid sty).timestamp = now
      ∧ ((ContextUpdate.create now screen metadata sid sty).model_dump.filter
            (fun p => p.2.isNull)).map Prod.fst = ["screenshot"]
      ∧ (ContextUpdate.create now screen metadata sid sty).ui_state.filter
            (fun p => p.2.isNull) = []
      ∧ (ContextUpdate.create now screen metadata sid sty).ui_state.map Prod.fst
          = ["screen", "metadata"]
            ++ (if strTruthy sid then ["selected_item_id"] else [])
            ++ (if strTruthy sty then ["selected_item_type"] else []) := by
  intro now screen metadata sid sty
  refine ⟨rfl, ?_, ?_, ?_⟩ <;>
    rcases sid with _ | s <;> rcases sty with _ | t <;>
      simp [ContextUpdate.create, ContextUpdate.model_dump, Json.isNull,
        strTruthy] <;>
      first
        | rfl
        | (by_cases hs : s = "" <;> by_cases ht : t = "" <;> simp [hs, ht])
        | (by_cases hs : s = "" <;> simp [hs])
        | (by_cases ht : t = "" <;> simp [ht])

/-! ## Claims about chat streaming -/

/-- Folding string append from any accumulator splits off the
accumulator: this is the shape of `String.join`. -/
theorem foldl_string_append (l : List String) :
    ∀ (r : String), l.foldl (fun a s => a ++ s) r = r ++ String.join l := by
  induction l with
  | nil =>
      intro r
      show r = r ++ ""
      rw [String.append_empty]
  | cons a l ih =>
      intro r
      show l.foldl (fun a s => a ++ s) (r ++ a) = r ++ String.join (a :: l)
      have hj : String.join (a :: l) = a ++ String.join l := by
        show l.foldl (fun a s => a ++ s) ("" ++ a) = a ++ String.join l
        rw [String.empty_append, ih a]
      rw [ih (r ++ a), hj, String.append_assoc]

/-- Folding a list of stream chunks appends the concatenation of their
contents to the chat buffer. -/
theorem stream_fold_chat_response (chunks : List StreamChunk) :
    ∀ (c : OmenClient),
      (chunks.foldl OmenClient.handle_stream_chunk c).state.chat_response
        = c.state.chat_response ++ String.join (chunks.map StreamChunk.content) := by
  induction chunks with
  | nil =>
      intro c
      show c.state.chat_response = c.state.chat_response ++ String.join []
      rw [String.join, List.foldl_nil, String.append_empty]
  | cons ch rest ih =>
      intro c
      show (rest.foldl OmenClient.handle_stream_chunk
          (c.handle_stream_chunk ch)).state.chat_response = _
      rw [ih (c.handle_stream_chunk ch)]
      show (c.state.chat_response ++ ch.content) ++ _ = _
      have hj : String.join (ch.content :: rest.map StreamChunk.content)
          = ch.content ++ String.join (rest.map StreamChunk.content) := by
        show (rest.map StreamChunk.content).foldl (fun a s => a ++ s)
            ("" ++ ch.content) = _
        rw [String.empty_append, foldl_string_append]
      rw [List.map_cons, hj, String.append_assoc]

/-- After folding a list of stream chunks whose last element exists, the
streaming flag is the negated `done` of that last chunk. -/
theorem stream_fold_is_streaming (chunks : List StreamChunk) :
    ∀ (c : OmenClient) (lastCh : StreamChunk),
      chunks.getLast? = some lastCh →
      (chunks.foldl OmenClient.handle_stream_chunk c).state.is_streaming
        = !lastCh.done := by
  induction chunks with
  | nil => intro c lastCh h; simp at h
  | cons ch rest ih =>
      intro c lastCh h
      cases rest with
      | nil =>
          simp only [List.getLast?_singleton, Option.some.injEq] at h
          subst h
          rfl
      | cons ch2 rest2 =>
          rw [List.getLast?_cons_cons] at h
          exact ih (c.handle_stream_chunk ch) lastCh h

/-- C6: after a successful chat send, folding any sequence of
`StreamChunk` events leaves the chat buffer equal to the concatenation
of the chunk contents in arrival order, and — whenever the sequence has
a last chunk — the streaming flag equal to NOT `done` of that chunk. -/
theorem chat_stream_accumulates_chunks :
    ∀ (c : OmenClient) (content : String) (cid : Option String)
      (chunks : List StreamChunk),
      c.ws = true →
      ((chunks.foldl OmenClient.handle_stream_chunk
          (c.send_chat true content cid).2).state.chat_response
        = String.join (chunks.map StreamChunk.content))
      ∧ (∀ (lastCh : StreamChunk), chunks.getLast? = some lastCh →
          (chunks.foldl OmenClient.handle_stream_chunk
              (c.send_chat true content cid).2).state.is_streaming
            = !lastCh.done) := by
  intro c content cid chunks hws
  have hreset : (c.send_chat true content cid).2.state.chat_response = "" := by
    simp [OmenClient.send_chat, hws]
  constructor
  · rw [stream_fold_chat_response chunks, hreset, String.empty_append]
  · intro lastCh h
    exact stream_fold_is_streaming chunks _ lastCh h

/-- Witness for C6: send, then `StreamChunk("Hello ", done=false)`, then
`StreamChunk("world", done=true)` yields buffer `"Hello world"` and
streaming `false`. -/
theorem chat_stream_accumulates_chunks_witness :
    (([{ content := "Hello ", done := false },
       { content := "world", done := true }] :
        List StreamChunk).foldl OmenClient.handle_stream_chunk
          (((OmenClient.init.connect true).2).send_chat true
            "Is the Colosseum worth visiting?" none).2).state.chat_response
      = "Hello world"
    ∧ (([{ content := "Hello ", done := false },
         { content := "world", done := true }] :
          List StreamChunk).foldl OmenClient.handle_stream_chunk
            (((OmenClient.init.connect true).2).send_chat true
              "Is the Colosseum worth visiting?" none).2).state.is_streaming
      = false := by
  have h := chat_stream_accumulates_chunks (OmenClient.init.connect true).2
    "Is the Colosseum worth visiting?" none
    [{ content := "Hello ", done := false },
     { content := "world", done := true }] rfl
  refine ⟨?_, ?_⟩
  · rw [h.1]
    rfl
  · rw [h.2 { content := "world", done := true } rfl]
    rfl

/-! ## Claims about the sidebar bound -/

/-- Keeping the last `n` of a list already trimmed to its last `n`, then
appending, is the same as trimming the full concatenation. -/
theorem drop_last_append {α : Type} (n : Nat) (xs ys : List α) :
    (xs.drop (xs.length - n) ++ ys).drop
        ((xs.drop (xs.length - n) ++ ys).length - n)
      = (xs ++ ys).drop ((xs ++ ys).length - n) := by
  by_cases h : xs.length ≤ n
  · rw [Nat.sub_eq_zero_of_le h]
    rw [List.drop_zero]
  · have hn : n ≤ xs.length := le_of_lt (not_le.mp h)
    have h1 : (xs.drop (xs.length - n) ++ ys).length - n = ys.length := by
      rw [List.length_append, List.length_drop]
      omega
    have h2 : (xs ++ ys).length - n
        = (xs.take (xs.length - n)).length + ys.length := by
      rw [List.length_append, List.length_take]
      omega
    have h3 : xs ++ ys
        = xs.take (xs.length - n) ++ (xs.drop (xs.length - n) ++ ys) := by
      rw [← List.append_assoc, List.take_append_drop]
    rw [h1, h2, h3, List.drop_append]

/-- One sidebar `assistant_output` appends and keeps the last
`MAX_SIDEBAR_INSIGHTS` entries. -/
theorem handle_sidebar_eq (c : OmenClient) (o : AssistantOutput)
    (h : o.target = OmenTarget.sidebar) :
    (c.handle_assistant_output o).state.sidebar_insights
      = (c.state.sidebar_insights ++ [o]).drop
          ((c.state.sidebar_insights ++ [o]).length - 5) := by
  simp only [OmenClient.handle_assistant_output, h, MAX_SIDEBAR_INSIGHTS]
  split
  · rfl
  · next hle =>
      have : (c.state.sidebar_insights ++ [o]).length - 5 = 0 := by omega
      rw [this, List.drop_zero]

/-- Every inbound `assistant_output` keeps the sidebar list within the
bound of 5. -/
theorem handle_assistant_output_bound (c : OmenClient) (o : AssistantOutput)
    (h : c.state.sidebar_insights.length ≤ 5) :
    (c.handle_assistant_output o).state.sidebar_insights.length ≤ 5 := by
  rcases ht : o.target with _ | _ | _
  · rw [handle_sidebar_eq c o ht, List.length_drop]
    omega
  · simp only [OmenClient.handle_assistant_output, ht]
    exact h
  · simp only [OmenClient.handle_assistant_output, ht]
    exact h

/-- `send_context` never mutates the client: the frame (if any) goes on
the wire and both success and failure leave the state alone. -/
theorem send_context_client_unchanged (c : OmenClient) (sendOk : Bool) (now : ℚ)
    (screen : OmenScreen) (metadata : List (String × Json))
    (sid sty : Option String) :
    (c.send_context sendOk now screen metadata sid sty).2.1 = c := by
  simp only [OmenClient.send_context]
  split
  · rfl
  · split <;> rfl

/-- `send_chat` only rewrites the chat buffer and the streaming flag. -/
theorem send_chat_sidebar_unchanged (c : OmenClient) (sendOk : Bool)
    (content : String) (cid : Option String) :
    (c.send_chat sendOk content cid).2.state.sidebar_insights
      = c.state.sidebar_insights := by
  simp only [OmenClient.send_chat]
  split
  · rfl
  · split <;> rfl

/-- The reconnect loop never touches the sidebar list. -/
theorem reconnectLoop_sidebar (outcome : Nat → Bool) :
    ∀ (fuel k : Nat) (c : OmenClient),
      ((OmenClient.reconnectLoop outcome k fuel c).2).state.sidebar_insights
        = c.state.sidebar_insights := by
  intro fuel
  induction fuel with
  | zero => intro k c; rfl
  | succ n ih =>
      intro k c
      rw [OmenClient.reconnectLoop]
      split
      · cases ho : outcome k <;> simp [OmenClient.connect, ho, ih]
      · rfl

/-- Every reachable client state keeps at most 5 sidebar insights. -/
theorem reachable_sidebar_le (c : OmenClient) (h : Reachable c) :
    c.state.sidebar_insights.length ≤ 5 := by
  induction h with
  | init => simp [OmenClient.init]
  | step hr hs ih =>
      cases hs with
      | connect ok => cases ok <;> simpa [OmenClient.connect] using ih
      | disconnect => simpa [OmenClient.disconnect] using ih
      | send_context sendOk now screen metadata sid sty =>
          rw [send_context_client_unchanged]
          exact ih
      | send_chat sendOk content cid =>
          rw [send_chat_sidebar_unchanged]
          exact ih
      | handle m =>
          cases m with
          | engine_status status => simpa [OmenClient.handle_message,
              OmenClient.handle_engine_status] using ih
          | assistant_output output =>
              exact handle_assistant_output_bound _ output ih
          | stream_chunk chunk => simpa [OmenClient.handle_message,
              OmenClient.handle_stream_chunk] using ih
          | error_frame e => simpa [OmenClient.handle_message,
              OmenClient.handle_error] using ih
          | unknown s => exact ih
      | reconnect outcome =>
          rw [OmenClient.reconnect, reconnectLoop_sidebar]
          exact ih
      | clear_sidebar => simp [OmenClient.clear_sidebar_insights]
      | clear_ambient => simpa [OmenClient.clear_ambient_message] using ih
      | fire_ambient => simpa [OmenClient.fire_ambient_clear] using ih

/-- Folding sidebar outputs from a state within the bound keeps the last
5 of the concatenation of the old list and the emitted stream. -/
theorem sidebar_fold_eq (outs : List AssistantOutput) :
    ∀ (c : OmenClient), (∀ o ∈ outs, o.target = OmenTarget.sidebar) →
      c.state.sidebar_insights.length ≤ 5 →
      (outs.foldl OmenClient.handle_assistant_output c).state.sidebar_insights
        = (c.state.sidebar_insights ++ outs).drop
            ((c.state.sidebar_insights ++ outs).length - 5) := by
  induction outs with
  | nil =>
      intro c _ hlen
      show c.state.sidebar_insights = _
      rw [List.append_nil, Nat.sub_eq_zero_of_le hlen, List.drop_zero]
  | cons o rest ih =>
      intro c hall hlen
      have ho : o.target = OmenTarget.sidebar := hall o (List.mem_cons_self o rest)
      have hrest : ∀ x ∈ rest, x.target = OmenTarget.sidebar :=
        fun x hx => hall x (List.mem_cons_of_mem o hx)
      have hlen' : (c.handle_assistant_output o).state.sidebar_insights.length ≤ 5 :=
        handle_assistant_output_bound c o hlen
      show (rest.foldl OmenClient.handle_assistant_output
          (c.handle_assistant_output o)).state.sidebar_insights = _
      rw [ih (c.handle_assistant_output o) hrest hlen', handle_sidebar_eq c o ho,
        drop_last_append 5 (c.state.sidebar_insights ++ [o]) rest,
        List.append_assoc]
      rfl

/-- C3: from every reachable state, a sequence of sidebar
`assistant_output` events keeps `sidebar_insights` within length 5 at
every prefix, and once the sequence has at least 6 events the list is
exactly the 5 most recently emitted insights in emission order. -/
theorem sidebar_insights_bounded_and_most_recent :
    ∀ (c : OmenClient), Reachable c →
    ∀ (outs : List AssistantOutput),
      (∀ o ∈ outs, o.target = OmenTarget.sidebar) →
      (∀ (p q : List AssistantOutput), outs = p ++ q →
        ((p.foldl OmenClient.handle_assistant_output c).state.sidebar_insights).length
          ≤ 5)
      ∧ (6 ≤ outs.length →
          (outs.foldl OmenClient.handle_assistant_output c).state.sidebar_insights
            = outs.drop (outs.length - 5)) := by
  intro c hc outs hall
  have hlen := reachable_sidebar_le c hc
  constructor
  · intro p q hpq
    have hp : ∀ o ∈ p, o.target = OmenTarget.sidebar :=
      fun o ho => hall o (hpq ▸ List.mem_append_left q ho)
    rw [sidebar_fold_eq p c hp hlen, List.length_drop]
    omega
  · intro h6
    rw [sidebar_fold_eq outs c hall hlen]
    have h2 : (c.state.sidebar_insights ++ outs).length - 5
        = c.state.sidebar_insights.length + (outs.length - 5) := by
      rw [List.length_append]
      omega
    rw [h2, List.drop_append]

/-- Witness for C3: six sidebar insights folded into a fresh client
leave exactly the last five, in order. -/
theorem sidebar_insights_bounded_and_most_recent_witness :
    (((List.range 6).map sidebarInsight).foldl OmenClient.handle_assistant_output
        OmenClient.init).state.sidebar_insights
      = ((List.range 6).map sidebarInsight).drop 1 := by
  have h := (sidebar_insights_bounded_and_most_recent OmenClient.init
      Reachable.init ((List.range 6).map sidebarInsight) (by decide)).2 (by decide)
  simpa using h

/-! ## Claims about reconnect backoff -/

/-- The reconnect loop is a no-op once its `while` guard fails. -/
theorem reconnectLoop_halt (outcome : Nat → Bool) (fuel k : Nat) (c : OmenClient)
    (h : ¬(c.should_reconnect = true ∧
        c.reconnect_attempts < MAX_RECONNECT_ATTEMPTS)) :
    OmenClient.reconnectLoop outcome k fuel c = ([], c) := by
  cases fuel with
  | zero => rfl
  | succ n => rw [OmenClient.reconnectLoop, if_neg h]

/-- One failing iteration of the reconnect loop: the counter goes up by
one, the computed delay is slept, and the loop continues from the
post-failure client. -/
theorem reconnectLoop_step_fail (outcome : Nat → Bool) (n k : Nat)
    (c : OmenClient) (hsr : c.should_reconnect = true)
    (hg : c.reconnect_attempts < MAX_RECONNECT_ATTEMPTS)
    (ho : outcome k = false) :
    OmenClient.reconnectLoop outcome k (n + 1) c
      = (min (RECONNECT_DELAY * 2 ^ c.reconnect_attempts) 60 ::
          (OmenClient.reconnectLoop outcome (k + 1) n
            { c with reconnect_attempts := c.reconnect_attempts + 1,
                     state := { c.state with is_connected := false,
                                             is_ready := false } }).1,
         (OmenClient.reconnectLoop outcome (k + 1) n
            { c with reconnect_attempts := c.reconnect_attempts + 1,
                     state := { c.state with is_connected := false,
                                             is_ready := false } }).2) := by
  rw [OmenClient.reconnectLoop, if_pos ⟨hsr, hg⟩]
  simp [OmenClient.connect, ho]

/-- One succeeding iteration of the reconnect loop: the delay is slept,
`connect()` succeeds, resets the counter to 0 and marks the client
connected, and the loop returns. -/
theorem reconnectLoop_step_succ (outcome : Nat → Bool) (n k : Nat)
    (c : OmenClient) (hsr : c.should_reconnect = true)
    (hg : c.reconnect_attempts < MAX_RECONNECT_ATTEMPTS)
    (ho : outcome k = true) :
    OmenClient.reconnectLoop outcome k (n + 1) c
      = ([min (RECONNECT_DELAY * 2 ^ c.reconnect_attempts) 60],
         { c with ws := true,
                  state := { c.state with is_connected := true },
                  reconnect_attempts := 0,
                  receive_task_pending := true }) := by
  rw [OmenClient.reconnectLoop, if_pos ⟨hsr, hg⟩]
  simp [OmenClient.connect, ho]

/-- The delay slept before the `(i+1)`-st try of a reconnect run is
`min(RECONNECT_DELAY * 2 ^ (attempts + i), 60)`. -/
theorem reconnectLoop_delay_formula (outcome : Nat → Bool) :
    ∀ (fuel k : Nat) (c : OmenClient), c.should_reconnect = true →
      ∀ (i : Nat), i < (OmenClient.reconnectLoop outcome k fuel c).1.length →
        (OmenClient.reconnectLoop outcome k fuel c).1[i]?
          = some (min (RECONNECT_DELAY * 2 ^ (c.reconnect_attempts + i)) 60) := by
  intro fuel
  induction fuel with
  | zero =>
      intro k c hsr i h
      simp [OmenClient.reconnectLoop] at h
  | succ n ih =>
      intro k c hsr i h
      by_cases hg : c.reconnect_attempts < MAX_RECONNECT_ATTEMPTS
      · cases ho : outcome k
        · rw [reconnectLoop_step_fail outcome n k c hsr hg ho] at h ⊢
          cases i with
          | zero => simp
          | succ j =>
              simp only [List.getElem?_cons_succ]
              have hj : j < (OmenClient.reconnectLoop outcome (k + 1) n
                  { c with reconnect_attempts := c.reconnect_attempts + 1,
                           state := { c.state with is_connected := false,
                                                   is_ready := false } }).1.length := by
                simpa using h
              have := ih (k + 1)
                { c with reconnect_attempts := c.reconnect_attempts + 1,
                         state := { c.state with is_connected := false,
                                                 is_ready := false } } hsr j hj
              rw [this]
              have harith : c.reconnect_attempts + 1 + j
                  = c.reconnect_attempts + (j + 1) := by omega
              simp only [harith]
        · rw [reconnectLoop_step_succ outcome n k c hsr hg ho] at h ⊢
          have : i = 0 := by simpa using h
          subst this
          simp
      · rw [reconnectLoop_halt outcome (n + 1) k c (fun hx => hg hx.2)] at h
        simp at h

/-- When every `connect()` fails, the reconnect loop makes exactly the
remaining attempts, drives the counter to the maximum, and leaves the
client disconnected. -/
theorem reconnectLoop_all_fail (outcome : Nat → Bool)
    (hout : ∀ j, outcome j = false) :
    ∀ (fuel k : Nat) (c : OmenClient),
      c.should_reconnect = true →
      MAX_RECONNECT_ATTEMPTS - c.reconnect_attempts ≤ fuel →
      ((OmenClient.reconnectLoop outcome k fuel c).1.length
          = MAX_RECONNECT_ATTEMPTS - c.reconnect_attempts)
      ∧ ((OmenClient.reconnectLoop outcome k fuel c).2.reconnect_attempts
          = max c.reconnect_attempts MAX_RECONNECT_ATTEMPTS)
      ∧ (c.reconnect_attempts < MAX_RECONNECT_ATTEMPTS →
          (OmenClient.reconnectLoop outcome k fuel c).2.state.is_connected = false) := by
  intro fuel
  induction fuel with
  | zero =>
      intro k c hsr hfuel
      have hge : MAX_RECONNECT_ATTEMPTS ≤ c.reconnect_attempts := by omega
      refine ⟨by simpa using (by omega : 0 = MAX_RECONNECT_ATTEMPTS - c.reconnect_attempts),
        (Nat.max_eq_left hge).symm, fun hlt => absurd hlt (by omega)⟩
  | succ n ih =>
      intro k c hsr hfuel
      by_cases hg : c.reconnect_attempts < MAX_RECONNECT_ATTEMPTS
      · rw [reconnectLoop_step_fail outcome n k c hsr hg (hout k)]
        have hfuel' : MAX_RECONNECT_ATTEMPTS - (c.reconnect_attempts + 1) ≤ n := by
          omega
        have ihf := ih (k + 1)
          { c with reconnect_attempts := c.reconnect_attempts + 1,
                   state := { c.state with is_connected := false,
                                           is_ready := false } } hsr hfuel'
        obtain ⟨h1, h2, h3⟩ := ihf
        refine ⟨?_, ?_, fun _ => ?_⟩
        · simp only [List.length_cons, h1]
          omega
        · rw [h2]
          have ha : max (c.reconnect_attempts + 1) MAX_RECONNECT_ATTEMPTS
              = MAX_RECONNECT_ATTEMPTS := Nat.max_eq_right (by omega)
          have hb : max c.reconnect_attempts MAX_RECONNECT_ATTEMPTS
              = MAX_RECONNECT_ATTEMPTS := Nat.max_eq_right (by omega)
          rw [ha, hb]
        · by_cases hg2 : c.reconnect_attempts + 1 < MAX_RECONNECT_ATTEMPTS
          · exact h3 hg2
          · rw [reconnectLoop_halt outcome n (k + 1) _ (fun hx => by
              have : c.reconnect_attempts + 1 < MAX_RECONNECT_ATTEMPTS := hx.2
              omega)]
      · have hge : MAX_RECONNECT_ATTEMPTS ≤ c.reconnect_attempts := by omega
        rw [reconnectLoop_halt outcome (n + 1) k c (fun hx => hg hx.2)]
        exact ⟨by simp [Nat.sub_eq_zero_of_le hge],
          (Nat.max_eq_left hge).symm, fun hlt => absurd hlt hg⟩

/-- If a reconnect run ends connected, the counter was reset to 0 by the
successful `connect()`. -/
theorem reconnectLoop_success_resets (outcome : Nat → Bool) :
    ∀ (fuel k : Nat) (c : OmenClient),
      c.state.is_connected = false →
      (OmenClient.reconnectLoop outcome k fuel c).2.state.is_connected = true →
      (OmenClient.reconnectLoop outcome k fuel c).2.reconnect_attempts = 0 := by
  intro fuel
  induction fuel with
  | zero =>
      intro k c hc hcon
      simp [OmenClient.reconnectLoop, hc] at hcon
  | succ n ih =>
      intro k c hc hcon
      by_cases hguard : c.should_reconnect = true ∧
          c.reconnect_attempts < MAX_RECONNECT_ATTEMPTS
      · cases ho : outcome k
        · rw [reconnectLoop_step_fail outcome n k c hguard.1 hguard.2 ho] at hcon ⊢
          exact ih (k + 1) _ rfl hcon
        · rw [reconnectLoop_step_succ outcome n k c hguard.1 hguard.2 ho]
      · rw [reconnectLoop_halt outcome (n + 1) k c hguard] at hcon ⊢
        simp [hc] at hcon

/-- C4: starting a reconnect run with counter 0 (disconnected, shutdown
not requested), the delay before attempt `i+1` is `min(5 * 2^i, 60)`
seconds — 5, 10, 20, 40, 60, 60, …; when every try fails, exactly 10
attempts are made, the counter ends at 10, the client stays
disconnected, and any further reconnect loop is a no-op until an
explicit `connect()` (which resets the counter to 0); when a try
succeeds, the counter has been reset to 0. -/
theorem reconnect_backoff_schedule :
    ∀ (outcome : Nat → Bool) (c : OmenClient),
      c.should_reconnect = true →
      c.reconnect_attempts = 0 →
      c.state.is_connected = false →
      (∀ (i : Nat), i < (OmenClient.reconnect outcome c).1.length →
        (OmenClient.reconnect outcome c).1[i]? = some (min (5 * 2 ^ i) 60))
      ∧ ((∀ j, outcome j = false) →
          (OmenClient.reconnect outcome c).1.length = 10
          ∧ (OmenClient.reconnect outcome c).2.reconnect_attempts = 10
          ∧ (OmenClient.reconnect outcome c).2.state.is_connected = false
          ∧ (∀ (outcome2 : Nat → Bool) (fuel k : Nat),
              OmenClient.reconnectLoop outcome2 k fuel
                  (OmenClient.reconnect outcome c).2
                = ([], (OmenClient.reconnect outcome c).2))
          ∧ ((OmenClient.reconnect outcome c).2.connect true).2.reconnect_attempts
              = 0)
      ∧ ((OmenClient.reconnect outcome c).2.state.is_connected = true →
          (OmenClient.reconnect outcome c).2.reconnect_attempts = 0) := by
  intro outcome c hsr ha hc
  refine ⟨?_, ?_, ?_⟩
  · intro i h
    have := reconnectLoop_delay_formula outcome MAX_RECONNECT_ATTEMPTS 0 c hsr i h
    rw [OmenClient.reconnect, this, ha]
    simp [RECONNECT_DELAY]
  · intro hout
    have h1 := reconnectLoop_all_fail outcome hout MAX_RECONNECT_ATTEMPTS 0 c hsr
      (by omega)
    obtain ⟨hlen, hatt, hconn⟩ := h1
    have hatt10 : (OmenClient.reconnect outcome c).2.reconnect_attempts = 10 := by
      rw [OmenClient.reconnect, hatt, ha]
      rfl
    refine ⟨?_, hatt10, ?_, ?_, rfl⟩
    · rw [OmenClient.reconnect, hlen, ha]
      rfl
    · exact hconn (by rw [ha]; exact (by decide : 0 < MAX_RECONNECT_ATTEMPTS))
    · intro outcome2 fuel k
      exact reconnectLoop_halt outcome2 fuel k _ (fun hx => by
        rw [hatt10] at hx
        exact absurd hx.2 (by decide))
  · intro hcon
    exact reconnectLoop_success_resets outcome MAX_RECONNECT_ATTEMPTS 0 c hc hcon

/-- Witness for C4: with every `connect()` failing, the run from a fresh
counter sleeps exactly 5, 10, 20, 40, 60, 60, 60, 60, 60, 60 seconds,
makes 10 attempts, and stops disconnected. -/
theorem reconnect_backoff_schedule_witness :
    (OmenClient.reconnect (fun _ => false) OmenClient.init).1
        = [5, 10, 20, 40, 60, 60, 60, 60, 60, 60]
    ∧ (OmenClient.reconnect (fun _ => false) OmenClient.init).1.length = 10
    ∧ (OmenClient.reconnect (fun _ => false) OmenClient.init).2.reconnect_attempts
        = 10
    ∧ (OmenClient.reconnect (fun _ => false)
        OmenClient.init).2.state.is_connected = false := by
  have h := (reconnect_backoff_schedule (fun _ => false) OmenClient.init
      rfl rfl rfl).2.1 (fun _ => rfl)
  exact ⟨by decide, h.1, h.2.1, h.2.2.1⟩

end Travelers
